import Mathlib

/-!
Shallow embedding of the EnergyMap.AI analytical pipeline
(`pipeline/scoring.py`, `pipeline/demand.py`, `pipeline/scenario.py`).

Python floats are modelled as exact rationals; possibly-missing numeric
columns become `Option ℚ`; a raised exception becomes `Option.none` in
the result type of the function that can raise.
-/

/-- Model of a Python/NumPy floating-point value: either a finite value
(modelled exactly as a rational) or one of the non-finite values that
`np.nan_to_num` replaces by 0 in `normalize_to_ten`. -/
inductive PyFloat where
  | finite (q : ℚ)
  | nan
  | posinf
  | neginf
deriving DecidableEq

/-- Embeds `np.nan_to_num(arr, nan=0.0, posinf=0.0, neginf=0.0)`,
applied elementwise (scoring.py line 28). -/
def nan_to_num : PyFloat → ℚ
  | PyFloat.finite q => q
  | PyFloat.nan => 0
  | PyFloat.posinf => 0
  | PyFloat.neginf => 0

/-- Embeds `np.isclose(a, b)` with NumPy default tolerances
`rtol = 1e-05`, `atol = 1e-08`: `|a - b| <= atol + rtol * |b|`. -/
def np_isclose (a b : ℚ) : Prop :=
  |a - b| ≤ 1 / 100000000 + (1 / 100000) * |b|

instance (a b : ℚ) : Decidable (np_isclose a b) := by
  unfold np_isclose
  infer_instance

/-- Embeds `np.clip(x, lo, hi)`, i.e. `np.minimum(hi, np.maximum(x, lo))`. -/
def np_clip (x lo hi : ℚ) : ℚ :=
  min hi (max x lo)

/-- Core of `normalize_to_ten` (scoring.py lines 30-41), operating on the
array obtained after `nan_to_num`: empty input gives empty output; when
`np.isclose(vmax, vmin)` every element maps to the constant 5.0
(`np.full_like(arr, 5.0)`); otherwise linear rescale `(v - vmin)/(vmax - vmin)`,
optionally inverted, scaled by 10 and clipped to `[0, 10]`. -/
def normalize_core (arr : List ℚ) (invert : Bool) : List ℚ :=
  match arr with
  | [] => []
  | x :: xs =>
    if np_isclose (xs.foldl max x) (xs.foldl min x) then
      (x :: xs).map (fun _ => (5 : ℚ))
    else
      (x :: xs).map (fun v =>
        np_clip
          ((if invert then
              1 - (v - xs.foldl min x) / (xs.foldl max x - xs.foldl min x)
            else
              (v - xs.foldl min x) / (xs.foldl max x - xs.foldl min x)) * 10)
          0 10)

/-- Embeds `normalize_to_ten(values, invert)` (scoring.py lines 26-41):
the input is converted with `nan_to_num` and then normalized. -/
def normalize_to_ten (values : List PyFloat) (invert : Bool) : List ℚ :=
  normalize_core (values.map nan_to_num) invert

/-- Embeds `clamp(value, minimum, maximum)` (scoring.py lines 22-23):
`max(minimum, min(value, maximum))`. -/
def clamp (value minimum maximum : ℚ) : ℚ :=
  max minimum (min value maximum)

/-- Parameters of the `grid_extension` recommendation rule, as resolved
from configuration (defaults 5 and 0.6 at the call sites). -/
structure GridExtensionRule where
  max_distance_km : ℚ
  min_population_index : ℚ
deriving DecidableEq

/-- Parameters of the `mini_grid_hybrid` recommendation rule
(defaults 15, 0.3, 0.5). -/
structure MiniGridHybridRule where
  max_distance_km : ℚ
  min_population_index : ℚ
  min_road_density : ℚ
deriving DecidableEq

/-- Parameters of the `standalone_solar` recommendation rule
(defaults 25, 0.2). -/
structure StandaloneSolarRule where
  min_distance_km : ℚ
  max_population_index : ℚ
deriving DecidableEq

/-- The resolved `scoring.recommendation_rules` configuration section. -/
structure RecommendationRules where
  grid_extension : GridExtensionRule
  mini_grid_hybrid : MiniGridHybridRule
  standalone_solar : StandaloneSolarRule
deriving DecidableEq

/-- Embeds `PriorityScoringPipeline.recommend_solution`
(scoring.py lines 195-221): fixed priority order, first match wins. -/
def recommend_solution (rules : RecommendationRules)
    (distance_km population_index economic_score : ℚ) : String :=
  let road_density_score := clamp (economic_score / 10) 0 1
  if distance_km ≤ rules.grid_extension.max_distance_km ∧
      rules.grid_extension.min_population_index ≤ population_index then
    "grid_extension"
  else if distance_km ≤ rules.mini_grid_hybrid.max_distance_km ∧
      rules.mini_grid_hybrid.min_population_index ≤ population_index ∧
      rules.mini_grid_hybrid.min_road_density ≤ road_density_score then
    "mini_grid_hybrid"
  else if rules.standalone_solar.min_distance_km ≤ distance_km ∧
      population_index ≤ rules.standalone_solar.max_population_index then
    "standalone_solar"
  else
    "mini_grid_solar"

/-- Embeds the `categorize` closure of `compute_scores`
(scoring.py lines 133-138): value ≥ high → High, value ≥ medium → Medium,
else Low. -/
def categorize (high medium value : ℚ) : String :=
  if high ≤ value then "High"
  else if medium ≤ value then "Medium"
  else "Low"

/-- Embeds the `estimate_cost` closure of `compute_scores`
(scoring.py lines 151-158): `households = population * 0.3`; grid
extension is distance-proportional plus per-household; `mini_grid*`
solutions are capacity-proportional plus per-household; anything else is
a flat per-household cost. -/
def estimate_cost (solution : String) (population distance : ℚ) : ℚ :=
  let households := population * (3 / 10)
  if solution = "grid_extension" then
    distance * 1000 + households * 200
  else if solution.startsWith "mini_grid" then
    households * (1 / 2) * 1500 + households * 300
  else
    households * 500

/-- Embeds the `cost_per_person` computation of `compute_scores`
(scoring.py lines 178-184): `np.where(pop > 0, cost / np.maximum(pop, 1), 0.0)`. -/
def cost_per_person (estimated_population estimated_cost : ℚ) : ℚ :=
  if 0 < estimated_population then
    estimated_cost / max estimated_population 1
  else
    0

/-- A row of the enriched cluster dataset, as consumed by
`DemandForecastPipeline._baseline_demand`: `energy_need_score` is an
optional column whose missing or unparsable entries become 0
(`pd.to_numeric(gdf.get("energy_need_score", 0), errors="coerce").fillna(0)`). -/
structure EnrichedCluster where
  priority_score : ℚ
  energy_need_score : Option ℚ
  recommended_solution : String
deriving DecidableEq

/-- Embeds `DemandForecastPipeline._status_from_need` (demand.py
lines 72-78): score ≥ 60 → "none", score ≥ 40 → "partial",
else "electrified". -/
def status_from_need (score : ℚ) : String :=
  if 60 ≤ score then "none"
  else if 40 ≤ score then "partial"
  else "electrified"

/-- Embeds the `electrification_status` assignment of
`DemandForecastPipeline._baseline_demand` (demand.py lines 84-87): the
status of a record is `_status_from_need` applied to the record's
`energy_need_score`, coerced to 0 when missing. -/
def baseline_status (r : EnrichedCluster) : String :=
  status_from_need (r.energy_need_score.getD 0)

/-- Embeds `years = max(target_year - base_year, 0)` with `base_year = 2024`
(demand.py lines 120-121); `Int.toNat` is exactly `max (· - 2024) 0`. -/
def forecast_years (target_year : ℤ) : ℕ :=
  (target_year - 2024).toNat

/-- Embeds the projected population of `_forecast_demand` (demand.py
line 128): `estimated_population * ((1 + growth_rate) ** years)`. -/
def future_population (population growth_rate : ℚ) (target_year : ℤ) : ℚ :=
  population * (1 + growth_rate) ^ forecast_years target_year

/-- Character-list helper: does `s` start with `pat`? -/
def charsLead : List Char → List Char → Bool
  | [], _ => true
  | _ :: _, [] => false
  | a :: as, b :: bs => a == b && charsLead as bs

/-- Character-list helper: does `pat` occur contiguously inside `s`? -/
def charsHasSub : List Char → List Char → Bool
  | pat, [] => charsLead pat []
  | pat, c :: rest => charsLead pat (c :: rest) || charsHasSub pat rest

/-- Embeds pandas `Series.str.contains(pat, na=False)` on one cell:
substring containment. -/
def strContains (s pat : String) : Bool :=
  charsHasSub pat.toList s.toList

/-- A row of the demand-forecast dataset as consumed by the Scenario
Engine. Optional fields model columns that may be absent
(`scenario_tag`, `solar_capacity_mw`, `estimated_cost_usd`). -/
structure ClusterRow where
  priority_score : ℚ
  dist_to_power_km : ℚ
  estimated_population : ℚ
  electrification_status : String
  recommended_solution : String
  baseline_demand_mwh_year : ℚ
  baseline_peak_demand_kw : ℚ
  solar_capacity_mw : Option ℚ
  estimated_cost_usd : Option ℚ
  scenario_tag : Option String
deriving DecidableEq

/-- An intervention dictionary: `type` and the optional type-specific
parameters read with `.get` and a default at each use site. -/
structure Intervention where
  itype : Option String
  count : Option Nat
  target : Option String
  rate : Option ℚ
  capacity_mw : Option ℚ
deriving DecidableEq

/-- Embeds `DataFrame.copy()`: a deep copy, extensionally the identical
dataset; all in-place writes in `apply_intervention` target the copy. -/
def df_copy (ds : List ClusterRow) : List ClusterRow :=
  ds

/-- Embeds `df.nlargest(n, column)` returning the positional indices of
the selected rows: stable descending sort by the key, first `n` rows. -/
def nlargestIdx (ds : List (Nat × ClusterRow)) (n : Nat) (key : ClusterRow → ℚ) :
    List Nat :=
  ((ds.mergeSort (fun a b => decide (key b.2 ≤ key a.2))).take n).map (fun p => p.1)

/-- Embeds `df.nsmallest(n, column)` returning positional indices. -/
def nsmallestIdx (ds : List (Nat × ClusterRow)) (n : Nat) (key : ClusterRow → ℚ) :
    List Nat :=
  ((ds.mergeSort (fun a b => decide (key a.2 ≤ key b.2))).take n).map (fun p => p.1)

/-- Embeds `df.head(n)` returning positional indices. -/
def headIdx (ds : List (Nat × ClusterRow)) (n : Nat) : List Nat :=
  (ds.take n).map (fun p => p.1)

/-- Embeds `result.loc[idx, ...] = ...`: apply `f` to the rows whose
positional index lies in `idx`, leave the others unchanged. -/
def updateAt (ds : List ClusterRow) (idx : List Nat) (f : ClusterRow → ClusterRow) :
    List ClusterRow :=
  ds.enum.map (fun p => if p.1 ∈ idx then f p.2 else p.2)

/-- Embeds `ScenarioPipeline.apply_intervention` (scenario.py
lines 60-112). Each branch mutates only `result = data.copy()`; an
unrecognised (or missing) `type` falls through every branch and the
untouched copy is returned. -/
def apply_intervention (data : List ClusterRow) (iv : Intervention) :
    List ClusterRow :=
  let result := df_copy data
  if iv.itype = some "grid_extension" then
    let count := iv.count.getD 10
    let target := iv.target.getD "top_priority"
    let idx :=
      if target = "top_priority" then
        nlargestIdx result.enum count (fun r => r.priority_score)
      else if target = "nearest_grid" then
        nsmallestIdx result.enum count (fun r => r.dist_to_power_km)
      else
        headIdx result.enum count
    updateAt result idx (fun r =>
      { r with
        electrification_status := "electrified"
        recommended_solution := "grid_extension"
        baseline_demand_mwh_year := r.baseline_demand_mwh_year * (3 / 2)
        scenario_tag := some "grid_extension" })
  else if iv.itype = some "mini_grid_deployment" then
    let count := iv.count.getD 20
    let suitable := result.enum.filter (fun p =>
      strContains p.2.recommended_solution "mini" ||
        p.2.electrification_status == "none")
    let idx := nlargestIdx suitable count (fun r => r.priority_score)
    updateAt result idx (fun r =>
      { r with
        electrification_status := "partial"
        recommended_solution := "mini_grid"
        baseline_demand_mwh_year := r.baseline_demand_mwh_year * (13 / 10)
        scenario_tag := some "mini_grid" })
  else if iv.itype = some "population_growth" then
    let rate := iv.rate.getD (1 / 10)
    result.map (fun r =>
      { r with
        estimated_population := r.estimated_population * (1 + rate)
        baseline_demand_mwh_year := r.baseline_demand_mwh_year * (1 + rate)
        baseline_peak_demand_kw := r.baseline_peak_demand_kw * (1 + rate)
        scenario_tag := some "population_growth" })
  else if iv.itype = some "demand_increase" then
    let rate := iv.rate.getD (1 / 5)
    result.map (fun r =>
      { r with
        baseline_demand_mwh_year := r.baseline_demand_mwh_year * (1 + rate)
        baseline_peak_demand_kw := r.baseline_peak_demand_kw * (1 + rate)
        scenario_tag := some "demand_increase" })
  else if iv.itype = some "solar_capacity_addition" then
    let capacity := iv.capacity_mw.getD 50
    let per_cluster := capacity / (max result.length 1 : ℚ)
    result.map (fun r =>
      { r with
        solar_capacity_mw := some (r.solar_capacity_mw.getD 0 + per_cluster)
        scenario_tag := some "solar_capacity" })
  else
    result

/-- The impact metrics returned by `calculate_impacts`; `cost_usd` is
`none` when the `estimated_cost_usd` column is absent (Python `nan`). -/
structure Impacts where
  people_electrified : ℚ
  settlements_connected : ℚ
  demand_increase_mwh : ℚ
  cost_usd : Option ℚ
  electrification_rate : ℚ
deriving DecidableEq

/-- Sum of a numeric column over a dataset. -/
def sumBy (ds : List ClusterRow) (f : ClusterRow → ℚ) : ℚ :=
  ds.foldl (fun acc r => acc + f r) 0

/-- Embeds `ScenarioPipeline.calculate_impacts` (scenario.py
lines 114-141). `people_electrified` and `settlements_connected` are
floored at 0 with `max(_, 0)`. The function builds its result dictionary
with `len(...) / len(scenario)` unguarded, so an empty `scenario` raises
`ZeroDivisionError`; the raise is modelled as `none`. -/
def calculate_impacts (baseline scenario : List ClusterRow) :
    Option Impacts :=
  let bu := baseline.filter (fun r => r.electrification_status == "none")
  let su := scenario.filter (fun r => r.electrification_status == "none")
  let people := sumBy bu (fun r => r.estimated_population) -
    sumBy su (fun r => r.estimated_population)
  let settlements : ℤ := (bu.length : ℤ) - (su.length : ℤ)
  let demand_baseline := sumBy baseline (fun r => r.baseline_demand_mwh_year)
  let demand_scenario := sumBy scenario (fun r => r.baseline_demand_mwh_year)
  let cost_total :=
    if scenario.all (fun r => r.estimated_cost_usd.isSome) then
      some (sumBy scenario (fun r => r.estimated_cost_usd.getD 0))
    else
      none
  if scenario.length = 0 then
    none
  else
    some
      { people_electrified := max people 0
        settlements_connected := max (settlements : ℚ) 0
        demand_increase_mwh := demand_scenario - demand_baseline
        cost_usd := cost_total
        electrification_rate :=
          ((scenario.filter
            (fun r => !(r.electrification_status == "none"))).length : ℚ) /
            (scenario.length : ℚ) }

/-- A named scenario: an ordered list of interventions. -/
structure ScenarioDefinition where
  name : String
  description : String
  interventions : List Intervention

/-- Embeds the loop of `ScenarioPipeline.run` (scenario.py
lines 143-171) with the baseline dataset threaded explicitly: each
scenario starts from `baseline.copy()`, folds its interventions, and the
impacts are computed against the threaded baseline. The first component
of the result is the baseline dataset as it stands after the loop. -/
def scenario_run (baseline : List ClusterRow) :
    List ScenarioDefinition → List ClusterRow × List (Option Impacts)
  | [] => (baseline, [])
  | d :: rest =>
    let scenario_data := df_copy baseline
    let scenario_data := d.interventions.foldl apply_intervention scenario_data
    let impacts := calculate_impacts baseline scenario_data
    let next := scenario_run baseline rest
    (next.1, impacts :: next.2)

/-! ### Claim theorems -/

/-- C1 counterexample: `_baseline_demand` derives `electrification_status`
from the record's `energy_need_score` column (0 when absent), not from
`priority_score`. A record with `priority_score = 70` and no
`energy_need_score` is classified "electrified", while the claim's rule
applied to its priority score of 70 yields "none". -/
theorem baseline_status_ignores_priority_counterexample :
    baseline_status
      { priority_score := 70
        energy_need_score := none
        recommended_solution := "grid_extension" } ≠
      status_from_need 70 := by
  decide

/-- C1 (amended): `electrification_status` is derived purely from the
record's `energy_need_score` (coerced to 0 when missing), not from
`priority_score`: "none" when the need score is ≥ 60, "partial" when in
[40, 60), "electrified" when < 40, regardless of `recommended_solution`
and of `priority_score`. -/
theorem baseline_status_from_need_score (r : EnrichedCluster) :
    baseline_status r = status_from_need (r.energy_need_score.getD 0) ∧
    (baseline_status r = "none" ↔ 60 ≤ r.energy_need_score.getD 0) ∧
    (baseline_status r = "partial" ↔
      40 ≤ r.energy_need_score.getD 0 ∧ r.energy_need_score.getD 0 < 60) ∧
    (baseline_status r = "electrified" ↔ r.energy_need_score.getD 0 < 40) := by
  refine ⟨rfl, ?_, ?_, ?_⟩ <;>
    · unfold baseline_status status_from_need
      split_ifs <;> simp_all <;> linarith

/-- C5: the recommendation rule is first-match-wins; whenever both the
grid-extension condition and the mini-grid-hybrid condition hold,
`recommend_solution` returns "grid_extension". -/
theorem recommend_solution_first_match_wins (rules : RecommendationRules)
    (distance_km population_index economic_score : ℚ)
    (hgrid : distance_km ≤ rules.grid_extension.max_distance_km ∧
      rules.grid_extension.min_population_index ≤ population_index)
    (hhybrid : distance_km ≤ rules.mini_grid_hybrid.max_distance_km ∧
      rules.mini_grid_hybrid.min_population_index ≤ population_index ∧
      rules.mini_grid_hybrid.min_road_density ≤
        clamp (economic_score / 10) 0 1) :
    recommend_solution rules distance_km population_index economic_score =
      "grid_extension" := by
  unfold recommend_solution
  rw [if_pos hgrid]

/-- C5 witness: with the default rule parameters, a cluster at distance 2
with population index 0.7 and economic score 8 satisfies both the grid
and hybrid conditions and is recommended grid extension. -/
theorem recommend_solution_first_match_wins_witness :
    recommend_solution
      { grid_extension := { max_distance_km := 5, min_population_index := 6 / 10 }
        mini_grid_hybrid :=
          { max_distance_km := 15, min_population_index := 3 / 10
            min_road_density := 1 / 2 }
        standalone_solar :=
          { min_distance_km := 25, max_population_index := 1 / 5 } }
      2 (7 / 10) 8 = "grid_extension" :=
  recommend_solution_first_match_wins _ 2 (7 / 10) 8
    (by constructor <;> norm_num)
    (by refine ⟨by norm_num, by norm_num, ?_⟩; unfold clamp; norm_num)

/-- C6: with thresholds `medium < high`, the priority category is "High"
iff the composite is ≥ high, "Medium" iff it lies in [medium, high), and
"Low" iff it is < medium, including at the exact boundaries. -/
theorem categorize_threshold_boundaries (high medium value : ℚ)
    (h : medium < high) :
    (categorize high medium value = "High" ↔ high ≤ value) ∧
    (categorize high medium value = "Medium" ↔
      medium ≤ value ∧ value < high) ∧
    (categorize high medium value = "Low" ↔ value < medium) := by
  unfold categorize
  refine ⟨?_, ?_, ?_⟩ <;> split_ifs <;> simp_all <;> linarith

/-- C6 witness: at high = 7, medium = 5 and composite exactly 7, the
category is "High" and the boundary characterization holds. -/
theorem categorize_threshold_boundaries_witness :
    (categorize 7 5 7 = "High" ↔ (7 : ℚ) ≤ 7) ∧
    (categorize 7 5 7 = "Medium" ↔ (5 : ℚ) ≤ 7 ∧ (7 : ℚ) < 7) ∧
    (categorize 7 5 7 = "Low" ↔ (7 : ℚ) < 5) :=
  categorize_threshold_boundaries 7 5 7 (by norm_num)

/-- C7: for non-negative population and distance, `cost_per_person_usd`
is non-negative (and total, hence finite); it equals
`estimated_cost / max(estimated_population, 1)` when the population is
positive, and is exactly 0 when the population is 0. -/
theorem cost_per_person_spec (solution : String) (population distance : ℚ)
    (hpop : 0 ≤ population) (hdist : 0 ≤ distance) :
    0 ≤ cost_per_person population (estimate_cost solution population distance) ∧
    (0 < population →
      cost_per_person population (estimate_cost solution population distance) =
        estimate_cost solution population distance / max population 1) ∧
    (population = 0 →
      cost_per_person population (estimate_cost solution population distance) = 0) := by
  have hcost : 0 ≤ estimate_cost solution population distance := by
    have hh : 0 ≤ population * (3 / 10) := by positivity
    simp only [estimate_cost]
    split_ifs with h1 h2
    · clear h1; nlinarith
    · clear h1 h2; nlinarith
    · clear h1 h2; nlinarith
  refine ⟨?_, ?_, ?_⟩
  · unfold cost_per_person
    split_ifs with hp
    · have hmax : (0 : ℚ) < max population 1 :=
        lt_of_lt_of_le one_pos (le_max_right _ _)
      exact div_nonneg hcost (le_of_lt hmax)
    · exact le_refl 0
  · intro hp
    unfold cost_per_person
    rw [if_pos hp]
  · intro hp
    unfold cost_per_person
    rw [if_neg (by rw [hp]; exact lt_irrefl 0)]

/-- C7 witness: a grid-extension cluster with estimated population 0 and
grid distance 2 has cost-per-person exactly 0 (and non-negative). -/
theorem cost_per_person_spec_witness :
    0 ≤ cost_per_person 0 (estimate_cost "grid_extension" 0 2) ∧
    ((0 : ℚ) < 0 →
      cost_per_person 0 (estimate_cost "grid_extension" 0 2) =
        estimate_cost "grid_extension" 0 2 / max 0 1) ∧
    ((0 : ℚ) = 0 →
      cost_per_person 0 (estimate_cost "grid_extension" 0 2) = 0) :=
  cost_per_person_spec "grid_extension" 0 2 (by norm_num) (by norm_num)

/-- C4 counterexample: the forecast floors `years` at 0
(`max(target_year - 2024, 0)`), so for target years at or below the base
year the projected population is constant: with population 100 and the
positive urban rate 0.035, moving the target year from 2022 to 2023 does
not strictly increase the projection (both equal 100). -/
theorem future_population_not_strict_counterexample :
    ¬ future_population 100 (35 / 1000) 2022 <
        future_population 100 (35 / 1000) 2023 := by
  have h1 : forecast_years 2022 = 0 := by decide
  have h2 : forecast_years 2023 = 0 := by decide
  simp [future_population, h1, h2]

/-- C4 (amended): for a fixed positive growth rate, a positive current
population, and target years at or beyond the base year 2024, the
projected future population strictly increases as the target year
increases. -/
theorem future_population_strict_mono (population growth_rate : ℚ)
    (y1 y2 : ℤ) (hpop : 0 < population) (hrate : 0 < growth_rate)
    (hbase : 2024 ≤ y1) (hlt : y1 < y2) :
    future_population population growth_rate y1 <
      future_population population growth_rate y2 := by
  unfold future_population
  have hyears : forecast_years y1 < forecast_years y2 := by
    unfold forecast_years
    omega
  have hgt : 1 < 1 + growth_rate := by linarith
  exact mul_lt_mul_of_pos_left (pow_lt_pow_right₀ hgt hyears) hpop

/-- C4 witness: population 1, growth rate 1, target years 2024 and 2025. -/
theorem future_population_strict_mono_witness :
    future_population 1 1 2024 < future_population 1 1 2025 :=
  future_population_strict_mono 1 1 2024 2025 (by norm_num) (by norm_num)
    (by norm_num) (by norm_num)

/-- Applying any intervention to the empty dataset yields the empty
dataset (every branch only copies, maps, or row-updates). -/
theorem apply_intervention_nil (iv : Intervention) :
    apply_intervention [] iv = [] := by
  unfold apply_intervention
  split_ifs <;> simp [df_copy, updateAt]

/-- C2: on a dataset with zero records, the Scenario Engine's impact
computation does not produce a defined value: `calculate_impacts`
divides by `len(scenario)` unguarded, so with an empty baseline (and
hence an empty scenario dataset after any sequence of interventions)
the computation raises `ZeroDivisionError`, modelled here as `none`.
This contradicts the claimed totality invariant. -/
theorem calculate_impacts_empty_dataset_raises (ivs : List Intervention) :
    calculate_impacts [] (ivs.foldl apply_intervention (df_copy [])) = none := by
  have hfold : ivs.foldl apply_intervention (df_copy []) = [] := by
    induction ivs with
    | nil => rfl
    | cons iv rest ih =>
      simpa [List.foldl, df_copy, apply_intervention_nil] using ih
  rw [hfold]
  rfl

/-- C8: whenever `calculate_impacts` returns a result, the metrics
`people_electrified` and `settlements_connected` are floored at 0 by
`max(_, 0)` and hence never negative, even when an intervention
increases the unserved population. -/
theorem calculate_impacts_metrics_floored (baseline scenario : List ClusterRow)
    (i : Impacts) (h : calculate_impacts baseline scenario = some i) :
    0 ≤ i.people_electrified ∧ 0 ≤ i.settlements_connected := by
  simp only [calculate_impacts] at h
  split at h
  · exact absurd h (by simp)
  · injection h with h
    subst h
    exact ⟨le_max_right _ _, le_max_right _ _⟩

/-- C8 witness: a scenario that regresses electrification (the single
baseline cluster is "electrified", the scenario leaves it "none" with
population 100) yields floored metrics 0, not negative values. -/
theorem calculate_impacts_metrics_floored_witness :
    0 ≤ (Impacts.mk 0 0 0 none 0).people_electrified ∧
    0 ≤ (Impacts.mk 0 0 0 none 0).settlements_connected :=
  calculate_impacts_metrics_floored
    [{ priority_score := 80, dist_to_power_km := 2, estimated_population := 30
       electrification_status := "electrified"
       recommended_solution := "grid_extension"
       baseline_demand_mwh_year := 2, baseline_peak_demand_kw := 1
       solar_capacity_mw := none, estimated_cost_usd := none
       scenario_tag := none }]
    [{ priority_score := 80, dist_to_power_km := 2, estimated_population := 100
       electrification_status := "none"
       recommended_solution := "grid_extension"
       baseline_demand_mwh_year := 2, baseline_peak_demand_kw := 1
       solar_capacity_mw := none, estimated_cost_usd := none
       scenario_tag := none }]
    (Impacts.mk 0 0 0 none 0) (by simp [calculate_impacts, sumBy])

/-- C9: the Scenario Engine never mutates the baseline dataset: after
the run loop applies every scenario's interventions (each scenario
starting from `baseline.copy()`), the threaded baseline is field-for-field
identical to its loaded state, and the copy itself is field-for-field
identical to the original. -/
theorem scenario_run_preserves_baseline (baseline : List ClusterRow)
    (defs : List ScenarioDefinition) :
    (scenario_run baseline defs).1 = baseline ∧ df_copy baseline = baseline := by
  constructor
  · induction defs with
    | nil => rfl
    | cons d rest ih => simpa [scenario_run] using ih
  · rfl

/-- C10: an intervention whose `type` tag is none of the five known
tags (including a missing tag) leaves the dataset identical to its
input — no field changed, no `scenario_tag` set — and does not raise. -/
theorem apply_intervention_unknown_type (data : List ClusterRow)
    (iv : Intervention)
    (h1 : iv.itype ≠ some "grid_extension")
    (h2 : iv.itype ≠ some "mini_grid_deployment")
    (h3 : iv.itype ≠ some "population_growth")
    (h4 : iv.itype ≠ some "demand_increase")
    (h5 : iv.itype ≠ some "solar_capacity_addition") :
    apply_intervention data iv = data := by
  simp only [apply_intervention, df_copy]
  rw [if_neg h1, if_neg h2, if_neg h3, if_neg h4, if_neg h5]

/-- C10 witness: an intervention tagged "carbon_tax" leaves a one-row
dataset unchanged. -/
theorem apply_intervention_unknown_type_witness :
    apply_intervention
      [{ priority_score := 80, dist_to_power_km := 2, estimated_population := 30
         electrification_status := "none"
         recommended_solution := "mini_grid_solar"
         baseline_demand_mwh_year := 2, baseline_peak_demand_kw := 1
         solar_capacity_mw := none, estimated_cost_usd := none
         scenario_tag := none }]
      { itype := some "carbon_tax", count := none, target := none
        rate := none, capacity_mw := none } =
      [{ priority_score := 80, dist_to_power_km := 2, estimated_population := 30
         electrification_status := "none"
         recommended_solution := "mini_grid_solar"
         baseline_demand_mwh_year := 2, baseline_peak_demand_kw := 1
         solar_capacity_mw := none, estimated_cost_usd := none
         scenario_tag := none }] :=
  apply_intervention_unknown_type _ _ (by decide) (by decide) (by decide)
    (by decide) (by decide)

/-- Folding `max` over a list of copies of `x` starting from `x` gives `x`. -/
theorem foldl_max_of_all_eq (x : ℚ) :
    ∀ xs : List ℚ, (∀ y ∈ xs, y = x) → xs.foldl max x = x
  | [], _ => rfl
  | z :: zs, h => by
    have hz : z = x := h z (by simp)
    rw [List.foldl_cons, hz, max_self]
    exact foldl_max_of_all_eq x zs (fun y hy => h y (by simp [hy]))

/-- Folding `min` over a list of copies of `x` starting from `x` gives `x`. -/
theorem foldl_min_of_all_eq (x : ℚ) :
    ∀ xs : List ℚ, (∀ y ∈ xs, y = x) → xs.foldl min x = x
  | [], _ => rfl
  | z :: zs, h => by
    have hz : z = x := h z (by simp)
    rw [List.foldl_cons, hz, min_self]
    exact foldl_min_of_all_eq x zs (fun y hy => h y (by simp [hy]))

/-- Clipping to `[0, 10]` lands in `[0, 10]`. -/
theorem np_clip_zero_ten (t : ℚ) : 0 ≤ np_clip t 0 10 ∧ np_clip t 0 10 ≤ 10 := by
  unfold np_clip
  exact ⟨le_min (by norm_num) (le_max_right t 0), min_le_left 10 (max t 0)⟩

/-- Every element produced by `normalize_core` lies in `[0, 10]`. -/
theorem normalize_core_bounds (arr : List ℚ) (invert : Bool) :
    ∀ y ∈ normalize_core arr invert, 0 ≤ y ∧ y ≤ 10 := by
  intro y hy
  cases arr with
  | nil => simp [normalize_core] at hy
  | cons x xs =>
    simp only [normalize_core] at hy
    split at hy
    · simp only [List.mem_map] at hy
      obtain ⟨v, hv, rfl⟩ := hy
      norm_num
    · simp only [List.mem_map] at hy
      obtain ⟨v, hv, rfl⟩ := hy
      exact np_clip_zero_ten _

/-- On a non-empty array whose elements are all equal, `normalize_core`
takes the `np.isclose` branch and returns the constant array 5.0. -/
theorem normalize_core_all_eq (x : ℚ) (xs : List ℚ) (invert : Bool)
    (h : ∀ y ∈ xs, y = x) :
    normalize_core (x :: xs) invert = List.replicate (x :: xs).length 5 := by
  have hmax : xs.foldl max x = x := foldl_max_of_all_eq x xs h
  have hmin : xs.foldl min x = x := foldl_min_of_all_eq x xs h
  have hclose : np_isclose (xs.foldl max x) (xs.foldl min x) := by
    rw [hmax, hmin]
    unfold np_isclose
    rw [sub_self, abs_zero]
    positivity
  simp only [normalize_core, if_pos hclose]
  simp [List.replicate_succ]

/-- `nan_to_num` of an already-finite value is that value. -/
theorem nan_to_num_finite (q : ℚ) : nan_to_num (PyFloat.finite q) = q := rfl

/-- C3: `normalize_to_ten` (a) always produces values in [0, 10];
(b) maps the empty input to the empty output; (c) maps any non-empty
input whose values, after non-finite replacement, are all equal to the
constant array 5.0; (d) replaces non-finite input values by 0 before
the range is computed, so the output only depends on the
`nan_to_num`-image of the input. -/
theorem normalize_to_ten_spec (values : List PyFloat) (invert : Bool) :
    (∀ y ∈ normalize_to_ten values invert, 0 ≤ y ∧ y ≤ 10) ∧
    (normalize_to_ten [] invert = []) ∧
    (values ≠ [] →
      (∀ u ∈ values, ∀ v ∈ values, nan_to_num u = nan_to_num v) →
      normalize_to_ten values invert = List.replicate values.length 5) ∧
    (normalize_to_ten values invert =
      normalize_to_ten (values.map (fun v => PyFloat.finite (nan_to_num v)))
        invert) := by
  refine ⟨normalize_core_bounds _ _, rfl, ?_, ?_⟩
  · intro hne hall
    cases values with
    | nil => exact absurd rfl hne
    | cons u us =>
      unfold normalize_to_ten
      simp only [List.map_cons]
      rw [normalize_core_all_eq (nan_to_num u) (us.map nan_to_num) invert ?_]
      · simp
      · intro y hy
        simp only [List.mem_map] at hy
        obtain ⟨w, hw, rfl⟩ := hy
        exact hall w (by simp [hw]) u (by simp)
  · unfold normalize_to_ten
    rw [List.map_map]
    have hmaps : values.map (nan_to_num ∘ fun v => PyFloat.finite (nan_to_num v)) =
        values.map nan_to_num := by
      simp [Function.comp, nan_to_num_finite]
    rw [hmaps]

/-- C3 witness: the two-element input [NaN, 0.0] is non-empty and
all-equal after non-finite replacement, and normalizes to [5.0, 5.0]. -/
theorem normalize_to_ten_spec_witness :
    normalize_to_ten [PyFloat.nan, PyFloat.finite 0] false =
      List.replicate ([PyFloat.nan, PyFloat.finite 0] : List PyFloat).length 5 :=
  (normalize_to_ten_spec [PyFloat.nan, PyFloat.finite 0] false).2.2.1
    (by decide) (by decide)
